import Mathlib

/-!
Shallow embedding of the connection-management and session-persistence core of
the diagram-ai repository: `MCPClient` (src/unnamed/part_001) and
`SessionManager` (src/backend/src/services/SessionManager.ts).

JS `Map<string, V>` objects are embedded as association lists with
insertion-order-preserving `set`, first-match `get` and key-removing `delete`.
Timestamps (`new Date()`) are threaded as explicit integer parameters.
Transport / client objects are identified by ids drawn from an allocation
counter; the set of established-and-not-closed transports is tracked
explicitly so that liveness claims about transports can be stated.
Asynchronous I/O (process connect, tool listing, tool calls, row deletion)
is resolved by an explicit environment argument giving each operation's
outcome.
-/

namespace DiagramAI

/-- First-match lookup, mirroring `Map.get`. -/
def mget {α : Type} (m : List (String × α)) (k : String) : Option α :=
  match m with
  | [] => none
  | (k', v') :: rest => if k' = k then some v' else mget rest k

/-- In-place update or append, mirroring `Map.set` (insertion order kept). -/
def mset {α : Type} (m : List (String × α)) (k : String) (v : α) : List (String × α) :=
  match m with
  | [] => [(k, v)]
  | (k', v') :: rest => if k' = k then (k, v) :: rest else (k', v') :: mset rest k v

/-- Key removal, mirroring `Map.delete`. -/
def mdel {α : Type} (m : List (String × α)) (k : String) : List (String × α) :=
  m.filter (fun p => p.1 ≠ k)

/-- `ConnectionStatus` from src/backend/src/types/index.ts. -/
structure ConnectionStatus where
  connected : Bool
  serverName : String
  lastChecked : Int
  error : Option String
deriving DecidableEq, Repr

/-- The mutable fields of `MCPClient` (src/unnamed/part_001), plus the
allocation counter for transport/client objects and the list of transports
that have been established (successful `client.connect`) and not closed. -/
structure MCPState where
  clients : List (String × Nat)
  transports : List (String × Nat)
  connectionStatus : List (String × ConnectionStatus)
  tools : List (String × List String)
  retryAttempts : List (String × Nat)
  nextId : Nat
  openTransports : List (String × Nat)
deriving DecidableEq, Repr

/-- The state of a fresh `MCPClient` (all maps empty). -/
def initState : MCPState :=
  { clients := [], transports := [], connectionStatus := [], tools := [],
    retryAttempts := [], nextId := 0, openTransports := [] }

/-- Outcome of one connect attempt: `client.connect` throws, or it succeeds
and the subsequent `client.listTools` throws, or both succeed (yielding the
advertised tool names). -/
inductive AttemptOutcome where
  | connectFail (msg : String)
  | listToolsFail (msg : String)
  | success (toolNames : List String)
deriving DecidableEq, Repr

/-- Whether the attempt ends in the `catch` block. -/
def AttemptOutcome.isFail : AttemptOutcome → Bool
  | .connectFail _ => true
  | .listToolsFail _ => true
  | .success _ => false

/-- The error message carried into the `catch` block. -/
def AttemptOutcome.msg : AttemptOutcome → String
  | .connectFail m => m
  | .listToolsFail m => m
  | .success _ => ""

/-- `MAX_RETRIES = 3` in `MCPClient`. -/
def MAX_RETRIES : Nat := 3

/-- State changes of one attempt body up to the point where it throws (or up
to completion on success).  `client.connect` failing leaves the maps
untouched; `listTools` failing happens after the client and transport were
stored and the transport went live. -/
def attemptEffect (name : String) (now : Int) (o : AttemptOutcome) (s : MCPState) : MCPState :=
  let tId := s.nextId
  let cId := s.nextId + 1
  match o with
  | .connectFail _ => { s with nextId := s.nextId + 2 }
  | .listToolsFail _ =>
      { s with nextId := s.nextId + 2,
               clients := mset s.clients name cId,
               transports := mset s.transports name tId,
               openTransports := (name, tId) :: s.openTransports }
  | .success toolNames =>
      { s with nextId := s.nextId + 2,
               clients := mset s.clients name cId,
               transports := mset s.transports name tId,
               openTransports := (name, tId) :: s.openTransports,
               tools := mset s.tools name toolNames,
               connectionStatus := mset s.connectionStatus name
                 ({ connected := true, serverName := name, lastChecked := now, error := none }),
               retryAttempts := mset s.retryAttempts name 0 }

/-- `MCPClient.connectWithRetry(config, attempt)`: try the attempt; on
success record the catalog, mark connected and reset the retry counter; on
failure, while `attempt < MAX_RETRIES`, set `retryAttempts = attempt + 1`,
back off, and recurse with `attempt + 1`; once the budget is exhausted mark
the status failed with the last error and rethrow. -/
def connectWithRetry (env : Nat → AttemptOutcome) (name : String) (now : Int)
    (attempt : Nat) (s : MCPState) : Except String Unit × MCPState :=
  let o := env attempt
  let s1 := attemptEffect name now o s
  if o.isFail then
    if h : attempt < MAX_RETRIES then
      connectWithRetry env name now (attempt + 1)
        { s1 with retryAttempts := mset s1.retryAttempts name (attempt + 1) }
    else
      let failSt : ConnectionStatus :=
        { connected := false, serverName := name, lastChecked := now, error := some o.msg }
      (.error o.msg, { s1 with connectionStatus := mset s1.connectionStatus name failSt })
  else
    (.ok (), s1)
termination_by MAX_RETRIES + 1 - attempt

/-- `MCPClient.connect(config)`: delegates to `connectWithRetry(config, 0)`. -/
def connect (env : Nat → AttemptOutcome) (name : String) (now : Int)
    (s : MCPState) : Except String Unit × MCPState :=
  connectWithRetry env name now 0 s

/-- `MCPClient.healthCheck(serverName)`: with no stored client, return
`false` and change nothing; otherwise issue `listTools` (outcome `env`),
record a connected status on success and a failed status carrying the error
on failure. -/
def healthCheck (env : Except String (List String)) (name : String) (now : Int)
    (s : MCPState) : Bool × MCPState :=
  match mget s.clients name with
  | none => (false, s)
  | some _ =>
    match env with
    | .ok _ =>
        let okSt : ConnectionStatus :=
          { connected := true, serverName := name, lastChecked := now, error := none }
        (true, { s with connectionStatus := mset s.connectionStatus name okSt })
    | .error msg =>
        let failSt : ConnectionStatus :=
          { connected := false, serverName := name, lastChecked := now, error := some msg }
        (false, { s with connectionStatus := mset s.connectionStatus name failSt })

/-- `MCPClient.disconnect(serverName)`: when both a client and a transport
are stored for the name, close the transport and drop the four map entries;
otherwise do nothing. -/
def disconnect (name : String) (s : MCPState) : MCPState :=
  match mget s.clients name, mget s.transports name with
  | some _, some t =>
      { s with clients := mdel s.clients name,
               transports := mdel s.transports name,
               tools := mdel s.tools name,
               connectionStatus := mdel s.connectionStatus name,
               openTransports := s.openTransports.filter (fun p => p ≠ (name, t)) }
  | _, _ => s

/-- Result of `MCPClient.callTool`: the value or thrown error, together with
the list of tool-call requests actually issued on the transport. -/
structure ToolCallOut (α β : Type) where
  result : Except String β
  calls : List (String × String × α)
deriving Repr

/-- `MCPClient.callTool(serverName, toolName, params)`: with no stored
client, throw `Not connected to MCP server: ...` without touching the
transport; otherwise issue the call and return its outcome (`env`). -/
def callTool {α β : Type} (env : Except String β) (s : MCPState)
    (serverName toolName : String) (params : α) : ToolCallOut α β :=
  match mget s.clients serverName with
  | none => { result := .error ("Not connected to MCP server: " ++ serverName), calls := [] }
  | some _ => { result := env, calls := [(serverName, toolName, params)] }

/-- `Position` from src/backend/src/types/index.ts. -/
structure Position where
  x : Int
  y : Int
deriving DecidableEq, Repr

/-- A value read off a plain JS object by `styles[type]`: an own string
entry, a member inherited from `Object.prototype` (a function, or the
prototype object itself for `__proto__` — in either case not a string and
truthy), or `undefined`. -/
inductive JSProp where
  | str (s : String)
  | inherited (name : String)
  | undefined
deriving DecidableEq, Repr

/-- JS truthiness of such a value: strings are truthy unless empty,
inherited `Object.prototype` members are objects/functions and always
truthy, `undefined` is falsy. -/
def JSProp.truthy : JSProp → Bool
  | .str s => s ≠ ""
  | .inherited _ => true
  | .undefined => false

/-- The property names a plain object literal inherits from
`Object.prototype`, which `styles[type]` reaches when `type` is not an own
key: the ES-defined members plus the legacy accessors. -/
def objectProtoMembers : List String :=
  ["constructor", "hasOwnProperty", "isPrototypeOf", "propertyIsEnumerable",
   "toLocaleString", "toString", "valueOf", "__defineGetter__", "__defineSetter__",
   "__lookupGetter__", "__lookupSetter__", "__proto__"]

/-- The argument object `createShape` passes to `mcp_drawio_add_rectangle`;
its `style` member is whatever value the lookup produced. -/
structure AddRectangleParams where
  text : String
  x : Int
  y : Int
  width : Int
  height : Int
  style : JSProp
deriving DecidableEq, Repr

/-- The own entries of the `styles` object literal in
`MCPClient.getShapeStyle`, in source order. -/
def shapeStyles : List (String × String) :=
  [("rectangle", "whiteSpace=wrap;html=1;fillColor=#dae8fc;strokeColor=#6c8ebf;"),
   ("ellipse", "ellipse;whiteSpace=wrap;html=1;fillColor=#d5e8d4;strokeColor=#82b366;"),
   ("cloud", "ellipse;shape=cloud;whiteSpace=wrap;html=1;fillColor=#fff2cc;strokeColor=#d6b656;"),
   ("cylinder", "shape=cylinder3;whiteSpace=wrap;html=1;fillColor=#f8cecc;strokeColor=#b85450;"),
   ("actor", "shape=umlActor;verticalLabelPosition=bottom;verticalAlign=top;html=1;fillColor=#e1d5e7;strokeColor=#9673a6;"),
   ("default", "whiteSpace=wrap;html=1;fillColor=#dae8fc;strokeColor=#6c8ebf;")]

/-- The JS property read `styles[ty]`: an own key shadows the prototype;
otherwise the access walks up to `Object.prototype` and yields the
inherited member when the name matches one, else `undefined`. -/
def readStyleProp (ty : String) : JSProp :=
  match mget shapeStyles ty with
  | some s => .str s
  | none => if ty ∈ objectProtoMembers then .inherited ty else .undefined

/-- `MCPClient.getShapeStyle(type)`: `styles[type] || styles.default` — the
read value itself when truthy (which an inherited `Object.prototype` member
always is), else the `default` entry. -/
def getShapeStyle (ty : String) : JSProp :=
  if (readStyleProp ty).truthy then readStyleProp ty else readStyleProp "default"

/-- `MCPClient.createShape(type, label, position, width, height)`: a
`callTool('drawio', 'mcp_drawio_add_rectangle', ...)` with the style looked
up from the shape type; the returned cell id is `result[0]?.text || ''`. -/
def createShape (env : Except String (List String)) (s : MCPState)
    (ty label : String) (position : Position) (width height : Int) :
    ToolCallOut AddRectangleParams String :=
  let out := callTool env s "drawio" "mcp_drawio_add_rectangle"
    (⟨label, position.x, position.y, width, height, getShapeStyle ty⟩ : AddRectangleParams)
  { result := out.result.map (fun content => content.head?.getD ""), calls := out.calls }

/-- `MCPClient.applyLayout(algorithm)`: logs that the algorithm is not yet
implemented and completes normally (returned value, emitted log lines). -/
def applyLayout (algorithm : String) : Except String Unit × List String :=
  (.ok (), ["Layout algorithm " ++ algorithm ++ " requested - not yet implemented"])

/-- `MCPClient.exportDiagram(format)`: unconditionally throws. -/
def exportDiagram (_format : String) : Except String (List Nat) :=
  .error "Export not yet implemented"

/-! ## SessionManager (src/backend/src/services/SessionManager.ts) -/

/-- The `ConfigState` stored in a session. -/
structure SessionConfig where
  provider : String
  apiKey : String
  model : String
deriving DecidableEq, Repr

/-- `Message` from src/backend/src/types/index.ts (fields this core reads). -/
structure Message where
  id : String
  sessionId : String
  role : String
  content : String
  timestamp : Int
deriving DecidableEq, Repr

/-- `Session` from src/backend/src/types/index.ts; a database row carries the
same six fields (serialization round-trips them unchanged). -/
structure Session where
  id : String
  createdAt : Int
  lastAccessedAt : Int
  chatHistory : List Message
  currentDiagram : Option String
  config : SessionConfig
deriving DecidableEq, Repr

/-- `Partial<Session>` as passed to `updateSession`. -/
structure SessionPatch where
  id : Option String := none
  createdAt : Option Int := none
  lastAccessedAt : Option Int := none
  chatHistory : Option (List Message) := none
  currentDiagram : Option (Option String) := none
  config : Option SessionConfig := none
deriving DecidableEq, Repr

/-- The default config written by `createSession`. -/
def defaultConfig : SessionConfig :=
  { provider := "openai", apiKey := "", model := "gpt-4" }

/-- The sessions table: a list of rows. -/
abbrev SessionDB : Type := List Session

/-- `SessionManager.getSession(id)`: `SELECT * FROM sessions WHERE id = ?`
(first matching row) or null. -/
def getSession (id : String) (db : SessionDB) : Option Session :=
  List.find? (fun r => r.id = id) db

/-- `SessionManager.createSession()`: builds the fresh session (`newId` is
the `randomUUID()` result, `now` the clock) and inserts its row. -/
def createSession (newId : String) (now : Int) (db : SessionDB) :
    Session × SessionDB :=
  let s : Session :=
    { id := newId, createdAt := now, lastAccessedAt := now,
      chatHistory := [], currentDiagram := none, config := defaultConfig }
  (s, db ++ [s])

/-- The spread `{...session, ...data, lastAccessedAt: new Date()}`. -/
def mergeSession (s : Session) (p : SessionPatch) (now : Int) : Session :=
  { id := p.id.getD s.id,
    createdAt := p.createdAt.getD s.createdAt,
    lastAccessedAt := now,
    chatHistory := p.chatHistory.getD s.chatHistory,
    currentDiagram := p.currentDiagram.getD s.currentDiagram,
    config := p.config.getD s.config }

/-- `SessionManager.updateSession(id, data)`: read the session, throw
`Session ... not found` when absent, otherwise merge and run the UPDATE —
which writes only `last_accessed_at`, `chat_history`, `current_diagram` and
`config` on the rows whose id matches. -/
def updateSession (id : String) (p : SessionPatch) (now : Int) (db : SessionDB) :
    Except String Unit × SessionDB :=
  match getSession id db with
  | none => (.error ("Session " ++ id ++ " not found"), db)
  | some s =>
    let merged := mergeSession s p now
    (.ok (),
     db.map (fun r =>
       if r.id = id then
         { r with lastAccessedAt := merged.lastAccessedAt,
                  chatHistory := merged.chatHistory,
                  currentDiagram := merged.currentDiagram,
                  config := merged.config }
       else r))

/-- `SessionManager.deleteSession(id)`: `DELETE FROM sessions WHERE id = ?`. -/
def deleteSession (id : String) (db : SessionDB) : SessionDB :=
  db.filter (fun r => r.id ≠ id)

/-- The 24-hour retention window in milliseconds. -/
def retentionMs : Int := 24 * 60 * 60 * 1000

/-- The deletion loop of `cleanupExpiredSessions`: delete each candidate id
in turn; a row whose delete the store refuses (`deleteOk` false) throws,
abandoning the rest of the list. -/
def cleanupLoop (deleteOk : String → Bool) (ids : List String) (db : SessionDB) :
    Except String Unit × SessionDB :=
  match ids with
  | [] => (.ok (), db)
  | id :: rest =>
    if deleteOk id then cleanupLoop deleteOk rest (deleteSession id db)
    else (.error ("delete failed for session " ++ id), db)

/-- `SessionManager.cleanupExpiredSessions()`: select the ids of rows with
`last_accessed_at` strictly before `now` minus 24 hours, delete them one by
one, and log the count selected; on success the count is reported. -/
def cleanupExpiredSessions (deleteOk : String → Bool) (now : Int) (db : SessionDB) :
    Except String Nat × SessionDB :=
  let expired := db.filter (fun r => r.lastAccessedAt < now - retentionMs)
  match cleanupLoop deleteOk (expired.map (fun r => r.id)) db with
  | (.ok _, db') => (.ok expired.length, db')
  | (.error e, db') => (.error e, db')

/-! ## Concrete environments and rows used by closed instances -/

/-- Decidable equality of `Except` results. -/
instance {e a : Type} [DecidableEq e] [DecidableEq a] : DecidableEq (Except e a) := fun x y =>
  match x, y with
  | .ok u, .ok v => decidable_of_iff (u = v) (by simp)
  | .ok _, .error _ => isFalse (fun h => Except.noConfusion h)
  | .error _, .ok _ => isFalse (fun h => Except.noConfusion h)
  | .error u, .error v => decidable_of_iff (u = v) (by simp)

/-- An environment in which every connect attempt succeeds. -/
def envAllOk : Nat → AttemptOutcome := fun _ => .success ["add_rectangle"]

/-- An environment in which every connect attempt fails at `client.connect`. -/
def envAllFail : Nat → AttemptOutcome := fun _ => .connectFail "spawn failed"

/-- An environment whose first two attempts fail and whose third succeeds. -/
def envTwoFail : Nat → AttemptOutcome := fun i =>
  if i < 2 then .connectFail "spawn failed" else .success ["add_rectangle"]

/-- A session row with id `a`, last accessed at epoch. -/
def sessA : Session :=
  { id := "a", createdAt := 0, lastAccessedAt := 0, chatHistory := [],
    currentDiagram := none, config := defaultConfig }

/-- A session row with id `b`, last accessed at epoch. -/
def sessB : Session :=
  { id := "b", createdAt := 0, lastAccessedAt := 0, chatHistory := [],
    currentDiagram := none, config := defaultConfig }

/-- A session row last accessed 25 hours before `now0`. -/
def sessStale : Session :=
  { id := "stale", createdAt := 0, lastAccessedAt := 3600000, chatHistory := [],
    currentDiagram := none, config := defaultConfig }

/-- A session row last accessed 1 hour before `now0`. -/
def sessLive : Session :=
  { id := "live", createdAt := 0, lastAccessedAt := 90000000, chatHistory := [],
    currentDiagram := none, config := defaultConfig }

/-- A reference clock: 26 hours after the epoch, in milliseconds. -/
def now0 : Int := 93600000

/-! ## Map lemmas -/

/-- Reading back the key just set. -/
theorem mget_mset_self {α : Type} (m : List (String × α)) (k : String) (v : α) :
    mget (mset m k v) k = some v := by
  induction m with
  | nil => simp [mset, mget]
  | cons p rest ih =>
    obtain ⟨k', v'⟩ := p
    by_cases h : k' = k <;> simp [mset, mget, h, ih]

/-- Setting one key leaves every other key's value unchanged. -/
theorem mget_mset_ne {α : Type} (m : List (String × α)) (k k' : String) (v : α)
    (h : k ≠ k') : mget (mset m k v) k' = mget m k' := by
  induction m with
  | nil => simp [mset, mget, h]
  | cons p rest ih =>
    obtain ⟨a, b⟩ := p
    by_cases ha : a = k
    · subst ha
      simp [mset, mget, h]
    · by_cases ha' : a = k' <;> simp [mset, mget, ha, ha', ih, Ne.symm h]

/-! ## Connect retry lemmas -/

/-- A retry run whose attempts `a, …, a+k-1` fail and whose attempt `a+k`
succeeds (with `a+k` within the budget) ends connected with the catalog
stored and the retry counter reset to 0, from any starting state. -/
theorem connectWithRetry_success (env : Nat → AttemptOutcome) (name : String) (now : Int)
    (ts : List String) (k : Nat) :
    ∀ (a : Nat) (s : MCPState), a + k ≤ MAX_RETRIES →
    (∀ i, i < k → (env (a + i)).isFail = true) →
    env (a + k) = .success ts →
    (connectWithRetry env name now a s).1 = .ok () ∧
    mget (connectWithRetry env name now a s).2.connectionStatus name =
      some { connected := true, serverName := name, lastChecked := now, error := none } ∧
    mget (connectWithRetry env name now a s).2.retryAttempts name = some 0 ∧
    mget (connectWithRetry env name now a s).2.tools name = some ts := by
  induction k with
  | zero =>
    intro a s _ _ hsucc
    rw [connectWithRetry]
    simp only [Nat.add_zero] at hsucc
    simp [hsucc, AttemptOutcome.isFail, attemptEffect, mget_mset_self]
  | succ k ih =>
    intro a s hk hfail hsucc
    rw [connectWithRetry]
    have h0 : (env a).isFail = true := by simpa using hfail 0 (Nat.succ_pos k)
    have ha : a < MAX_RETRIES := by
      have : MAX_RETRIES = 3 := rfl
      omega
    simp only [h0, if_true, dif_pos ha]
    exact ih (a + 1) _ (by omega)
      (fun i hi => by
        have h := hfail (i + 1) (by omega)
        rwa [show a + (i + 1) = a + 1 + i by omega] at h)
      (by rwa [show a + (k + 1) = a + 1 + k by omega] at hsucc)

/-- A retry run all of whose attempts from `a` through `MAX_RETRIES` fail
rethrows the last attempt's error and records a failed status carrying it. -/
theorem connectWithRetry_exhaust (env : Nat → AttemptOutcome) (name : String) (now : Int)
    (fuel : Nat) :
    ∀ (a : Nat) (s : MCPState), MAX_RETRIES - a = fuel → a ≤ MAX_RETRIES →
    (∀ i, a ≤ i → i ≤ MAX_RETRIES → (env i).isFail = true) →
    (connectWithRetry env name now a s).1 = .error (env MAX_RETRIES).msg ∧
    mget (connectWithRetry env name now a s).2.connectionStatus name =
      some { connected := false, serverName := name, lastChecked := now,
             error := some (env MAX_RETRIES).msg } := by
  induction fuel with
  | zero =>
    intro a s hfuel ha hfail
    have haeq : a = MAX_RETRIES := by omega
    subst haeq
    rw [connectWithRetry]
    have h0 : (env MAX_RETRIES).isFail = true := hfail MAX_RETRIES le_rfl le_rfl
    simp [h0, mget_mset_self]
  | succ fuel ih =>
    intro a s hfuel ha hfail
    have halt : a < MAX_RETRIES := by omega
    rw [connectWithRetry]
    have h0 : (env a).isFail = true := hfail a le_rfl ha
    simp only [h0, if_true, dif_pos halt]
    exact ih (a + 1) _ (by omega) (by omega) (fun i h1 h2 => hfail i (by omega) h2)

/-! ## Claim C1 -/

/-- Claim C1, counterexample. After a successful `connect` the name is
Connected; calling `connect` again is not a no-op: it establishes a second
transport, and both transports for the name are then live at once —
refuting both halves of the claim at a concrete input. -/
theorem C1_counterexample_double_connect :
    ((mget (connect envAllOk "drawio" 0 initState).2.connectionStatus "drawio").map
        ConnectionStatus.connected = some true) ∧
    (connect envAllOk "drawio" 1 (connect envAllOk "drawio" 0 initState).2).2.openTransports
      = [("drawio", 2), ("drawio", 0)] := by
  simp [connect, connectWithRetry, envAllOk, attemptEffect, initState, mset, mget,
        AttemptOutcome.isFail]

/-- Claim C1, amended. `connect` never consults the current status, so a
call while the name is already Connected is not a no-op: on a first-attempt
success it establishes one new transport, prepending it to the live set —
the previous transport stays live (it is overwritten in the map, never
closed) — and overwrites the transport entry for the name. -/
theorem C1_connect_while_connected_adds_transport (env : Nat → AttemptOutcome)
    (name : String) (now : Int) (s : MCPState) (ts : List String)
    (_hconn : (mget s.connectionStatus name).map ConnectionStatus.connected = some true)
    (henv : env 0 = .success ts) :
    (connect env name now s).1 = .ok () ∧
    (connect env name now s).2.openTransports = (name, s.nextId) :: s.openTransports ∧
    mget (connect env name now s).2.transports name = some s.nextId := by
  unfold connect
  rw [connectWithRetry]
  simp [henv, AttemptOutcome.isFail, attemptEffect, mget_mset_self]

/-- Claim C1, witness: the amended theorem applied to the Connected state
reached by one successful `connect` from the initial state. -/
theorem C1_witness :
    ((mget (connect envAllOk "drawio" 0 initState).2.connectionStatus "drawio").map
        ConnectionStatus.connected = some true) ∧
    ((connect envAllOk "drawio" 1 (connect envAllOk "drawio" 0 initState).2).1 = .ok () ∧
     (connect envAllOk "drawio" 1 (connect envAllOk "drawio" 0 initState).2).2.openTransports
       = ("drawio", (connect envAllOk "drawio" 0 initState).2.nextId)
           :: (connect envAllOk "drawio" 0 initState).2.openTransports ∧
     mget (connect envAllOk "drawio" 1 (connect envAllOk "drawio" 0 initState).2).2.transports
        "drawio" = some (connect envAllOk "drawio" 0 initState).2.nextId) := by
  constructor
  · simp [connect, connectWithRetry, envAllOk, attemptEffect, initState, mset, mget,
          AttemptOutcome.isFail]
  · exact C1_connect_while_connected_adds_transport envAllOk "drawio" 1
      (connect envAllOk "drawio" 0 initState).2 ["add_rectangle"]
      (by simp [connect, connectWithRetry, envAllOk, attemptEffect, initState, mset, mget,
                AttemptOutcome.isFail])
      rfl

/-! ## Claim C2 -/

/-- Claim C2: with `k` within the budget, a connect whose first `k` attempts
fail and whose next succeeds ends Connected with retryCount 0; a connect all
of whose attempts fail ends Failed with the last error recorded and rethrown;
and a subsequent connect on the exhausted state runs a fresh attempt
sequence — the same `k`-failures-then-success pattern again ends Connected
with retryCount 0 instead of failing on a spent budget. -/
theorem C2_retry_budget (env envX : Nat → AttemptOutcome) (name : String) (now nowX : Int)
    (s : MCPState) (k : Nat) (ts : List String)
    (hk : k ≤ MAX_RETRIES)
    (hfail : ∀ i, i < k → (env i).isFail = true)
    (hsucc : env k = .success ts)
    (hexh : ∀ i, i ≤ MAX_RETRIES → (envX i).isFail = true) :
    ((connect env name now s).1 = .ok () ∧
     mget (connect env name now s).2.connectionStatus name =
       some { connected := true, serverName := name, lastChecked := now, error := none } ∧
     mget (connect env name now s).2.retryAttempts name = some 0) ∧
    ((connect envX name now s).1 = .error (envX MAX_RETRIES).msg ∧
     mget (connect envX name now s).2.connectionStatus name =
       some { connected := false, serverName := name, lastChecked := now,
              error := some (envX MAX_RETRIES).msg }) ∧
    ((connect env name nowX (connect envX name now s).2).1 = .ok () ∧
     mget (connect env name nowX (connect envX name now s).2).2.connectionStatus name =
       some { connected := true, serverName := name, lastChecked := nowX, error := none } ∧
     mget (connect env name nowX (connect envX name now s).2).2.retryAttempts name = some 0) := by
  have hs := connectWithRetry_success env name now ts k 0 s (by omega)
    (fun i hi => by simpa using hfail i hi) (by simpa using hsucc)
  have hx := connectWithRetry_exhaust envX name now MAX_RETRIES 0 s rfl (Nat.zero_le _)
    (fun i _ h2 => hexh i h2)
  have hs2 := connectWithRetry_success env name nowX ts k 0
    (connect envX name now s).2 (by omega)
    (fun i hi => by simpa using hfail i hi) (by simpa using hsucc)
  exact ⟨⟨hs.1, hs.2.1, hs.2.2.1⟩, hx, ⟨hs2.1, hs2.2.1, hs2.2.2.1⟩⟩

/-- Claim C2, witness: two failures then a success (`k = 2`), and a fully
failing environment, from the initial state. -/
theorem C2_witness :
    ((2 ≤ MAX_RETRIES) ∧ (∀ i, i < 2 → (envTwoFail i).isFail = true) ∧
     envTwoFail 2 = .success ["add_rectangle"] ∧
     (∀ i, i ≤ MAX_RETRIES → (envAllFail i).isFail = true)) ∧
    (((connect envTwoFail "drawio" 0 initState).1 = .ok () ∧
      mget (connect envTwoFail "drawio" 0 initState).2.connectionStatus "drawio" =
        some { connected := true, serverName := "drawio", lastChecked := 0, error := none } ∧
      mget (connect envTwoFail "drawio" 0 initState).2.retryAttempts "drawio" = some 0) ∧
     ((connect envAllFail "drawio" 0 initState).1 = .error (envAllFail MAX_RETRIES).msg ∧
      mget (connect envAllFail "drawio" 0 initState).2.connectionStatus "drawio" =
        some { connected := false, serverName := "drawio", lastChecked := 0,
               error := some (envAllFail MAX_RETRIES).msg }) ∧
     ((connect envTwoFail "drawio" 1 (connect envAllFail "drawio" 0 initState).2).1 = .ok () ∧
      mget (connect envTwoFail "drawio" 1
          (connect envAllFail "drawio" 0 initState).2).2.connectionStatus "drawio" =
        some { connected := true, serverName := "drawio", lastChecked := 1, error := none } ∧
      mget (connect envTwoFail "drawio" 1
          (connect envAllFail "drawio" 0 initState).2).2.retryAttempts "drawio" = some 0)) :=
  ⟨⟨by decide, by decide, by decide, by decide⟩,
   C2_retry_budget envTwoFail envAllFail "drawio" 0 1 initState 2 ["add_rectangle"]
     (by decide) (by decide) (by decide) (by decide)⟩

/-! ## Claim C3 -/

/-- Claim C3, counterexample. After a successful connect and one failed
health check the recorded status is Failed (connected = false), yet
`callTool` on that name issues a tool call on the transport and returns its
result — it neither fails with the not-connected error nor avoids I/O. -/
theorem C3_counterexample_healthcheck_keeps_client :
    ((mget (healthCheck (Except.error "hc down") "drawio" 2
        (connect envAllOk "drawio" 0 initState).2).2.connectionStatus "drawio").map
          ConnectionStatus.connected = some false) ∧
    (callTool (Except.ok ["cell1"]) (healthCheck (Except.error "hc down") "drawio" 2
        (connect envAllOk "drawio" 0 initState).2).2
        "drawio" "mcp_drawio_list_paged_model" (0 : Nat)).calls
      = [("drawio", "mcp_drawio_list_paged_model", 0)] ∧
    (callTool (Except.ok ["cell1"]) (healthCheck (Except.error "hc down") "drawio" 2
        (connect envAllOk "drawio" 0 initState).2).2
        "drawio" "mcp_drawio_list_paged_model" (0 : Nat)).result = Except.ok ["cell1"] := by
  simp [connect, connectWithRetry, envAllOk, attemptEffect, initState, healthCheck, callTool,
        mset, mget, AttemptOutcome.isFail]

/-- Claim C3, amended. `callTool` consults only the clients map: with no
stored client it fails immediately with the not-connected error and issues
no tool call; with a stored client it issues exactly one tool call whatever
the recorded status says — and a failed health check leaves the clients map
unchanged, so a name marked Failed by a health check still has its client
and `callTool` on it performs transport I/O. -/
theorem C3_callTool_client_map_only {α β : Type} (env : Except String β) (s : MCPState)
    (name toolName : String) (params : α) :
    (mget s.clients name = none →
       (callTool env s name toolName params).result
         = .error ("Not connected to MCP server: " ++ name) ∧
       (callTool env s name toolName params).calls = []) ∧
    (∀ c, mget s.clients name = some c →
       (callTool env s name toolName params).calls = [(name, toolName, params)] ∧
       (callTool env s name toolName params).result = env) ∧
    (∀ msg now, (healthCheck (Except.error msg) name now s).2.clients = s.clients) := by
  refine ⟨fun h => ?_, fun c h => ?_, fun msg now => ?_⟩
  · simp [callTool, h]
  · simp [callTool, h]
  · cases h : mget s.clients name <;> simp [healthCheck, h]

/-- Claim C3, witness: on the initial state (no client stored for the name)
`callTool` returns the not-connected error and issues no call. -/
theorem C3_witness :
    (mget initState.clients "drawio" = none ∧
     (callTool (α := Nat) (Except.ok ["cell1"]) initState "drawio" "tool" 7).result
       = .error ("Not connected to MCP server: " ++ "drawio") ∧
     (callTool (α := Nat) (Except.ok ["cell1"]) initState "drawio" "tool" 7).calls = []) :=
  ⟨by decide,
   (C3_callTool_client_map_only (Except.ok ["cell1"]) initState "drawio" "tool" 7).1
     (by decide)⟩

/-! ## Claim C4 -/

/-- Claim C4, counterexample. `applyLayout` completes normally — it does not
fail with a NotImplemented error. -/
theorem C4_counterexample_applyLayout_ok : (applyLayout "hierarchical").1 = .ok () := rfl

/-- Claim C4, amended. For every invocation, `exportDiagram` fails
explicitly with the not-implemented error, while `applyLayout` never fails:
it logs a not-yet-implemented message and completes as a no-op. -/
theorem C4_layout_export_not_implemented (algorithm format : String) :
    (applyLayout algorithm).1 = .ok () ∧
    (applyLayout algorithm).2
      = ["Layout algorithm " ++ algorithm ++ " requested - not yet implemented"] ∧
    exportDiagram format = .error "Export not yet implemented" :=
  ⟨rfl, rfl, rfl⟩

/-! ## Claim C5 -/

/-- Deleting every id in the list, with every delete succeeding, filters
those ids out of the table. -/
theorem cleanupLoop_all_ok (ids : List String) (db : SessionDB) :
    cleanupLoop (fun _ => true) ids db
      = (.ok (), db.filter (fun r => decide (¬ r.id ∈ ids))) := by
  induction ids generalizing db with
  | nil => simp [cleanupLoop]
  | cons id rest ih =>
    rw [cleanupLoop]
    simp only [if_true]
    rw [ih, deleteSession, List.filter_filter]
    congr 1
    apply List.filter_congr
    intro r _
    by_cases h1 : r.id = id <;> by_cases h2 : r.id ∈ rest <;> simp [h1, h2]

/-- With pairwise-distinct ids, keeping the rows whose id is not among the
ids of the rows satisfying `P` is keeping the rows not satisfying `P`. -/
theorem expired_filter_char (db : SessionDB) (P : Session → Bool)
    (huniq : db.Pairwise (fun r r' => r.id ≠ r'.id)) :
    db.filter (fun r => decide (¬ r.id ∈ (db.filter P).map Session.id))
      = db.filter (fun r => ! P r) := by
  apply List.filter_congr
  intro r hr
  by_cases hP : P r
  · have hmem : r.id ∈ (db.filter P).map Session.id :=
      List.mem_map_of_mem Session.id (List.mem_filter.mpr ⟨hr, hP⟩)
    simp [hmem, hP]
  · have hnmem : ¬ r.id ∈ (db.filter P).map Session.id := by
      intro hmem
      obtain ⟨r', hr', hid⟩ := List.mem_map.mp hmem
      have hr'db := (List.mem_filter.mp hr').1
      have hP' := (List.mem_filter.mp hr').2
      have hne : r ≠ r' := by intro he; rw [he] at hP; exact hP hP'
      exact (huniq.forall (fun _ _ h => Ne.symm h) hr hr'db hne) hid.symm
    simp [hnmem, hP]

/-- Claim C5, counterexample. With two sessions both last accessed more than
24 hours before now and the store refusing the first delete, the batch
aborts: the error propagates, no count is reported, and the second
qualifying session is left in the table — refuting the claim that a failure
deleting one session does not abort the batch. -/
theorem C5_counterexample_abort_on_failure :
    sessB.lastAccessedAt < now0 - retentionMs ∧
    (cleanupExpiredSessions (fun i => i != "a") now0 [sessA, sessB]).1
      = .error "delete failed for session a" ∧
    (cleanupExpiredSessions (fun i => i != "a") now0 [sessA, sessB]).2 = [sessA, sessB] := by
  decide

/-- Claim C5, amended. With pairwise-distinct session ids: when every delete
succeeds, `cleanupExpiredSessions` deletes exactly the sessions whose
lastAccessedAt is strictly before now minus 24 hours and the reported count
equals the number of qualifying sessions; but a failure deleting the first
qualifying session aborts the batch — the error propagates, no count is
reported, and the remaining candidates are not processed. -/
theorem C5_cleanup_expired (now : Int) (db : SessionDB)
    (huniq : db.Pairwise (fun r r' => r.id ≠ r'.id)) :
    ((cleanupExpiredSessions (fun _ => true) now db).1
       = .ok (db.filter (fun r => r.lastAccessedAt < now - retentionMs)).length ∧
     (cleanupExpiredSessions (fun _ => true) now db).2
       = db.filter (fun r => ! decide (r.lastAccessedAt < now - retentionMs))) ∧
    (∀ e rest,
       db.filter (fun r => r.lastAccessedAt < now - retentionMs) = e :: rest →
       (cleanupExpiredSessions (fun i => i != e.id) now db).1
         = .error ("delete failed for session " ++ e.id) ∧
       (cleanupExpiredSessions (fun i => i != e.id) now db).2 = db) := by
  constructor
  · rw [cleanupExpiredSessions]
    rw [cleanupLoop_all_ok]
    rw [expired_filter_char db (fun r => decide (r.lastAccessedAt < now - retentionMs)) huniq]
    exact ⟨rfl, rfl⟩
  · intro e rest hexp
    rw [cleanupExpiredSessions, hexp]
    simp only [List.map_cons, cleanupLoop]
    simp

/-- Claim C5, witness: a session last accessed 25 hours ago and one last
accessed 1 hour ago; the stale one is deleted, the live one retained, with
the count reported as the number of qualifying sessions. -/
theorem C5_witness :
    (([sessStale, sessLive] : SessionDB).Pairwise (fun r r' => r.id ≠ r'.id)) ∧
    (((cleanupExpiredSessions (fun _ => true) now0 [sessStale, sessLive]).1
        = .ok (([sessStale, sessLive] : SessionDB).filter
            (fun r => r.lastAccessedAt < now0 - retentionMs)).length ∧
      (cleanupExpiredSessions (fun _ => true) now0 [sessStale, sessLive]).2
        = ([sessStale, sessLive] : SessionDB).filter
            (fun r => ! decide (r.lastAccessedAt < now0 - retentionMs))) ∧
     (∀ e rest,
        ([sessStale, sessLive] : SessionDB).filter
            (fun r => r.lastAccessedAt < now0 - retentionMs) = e :: rest →
        (cleanupExpiredSessions (fun i => i != e.id) now0 [sessStale, sessLive]).1
          = .error ("delete failed for session " ++ e.id) ∧
        (cleanupExpiredSessions (fun i => i != e.id) now0 [sessStale, sessLive]).2
          = [sessStale, sessLive])) :=
  ⟨by decide, C5_cleanup_expired now0 [sessStale, sessLive] (by decide)⟩

/-! ## Claim C6 -/

/-- Claim C6: `healthCheck` never touches the retry counters, clients,
transports, tool catalogs, live transports or the allocator — on failure it
updates only the recorded status of the checked name (other names' statuses
are untouched) — and on a name with no stored client it returns `false`
with the state identically unchanged. In particular a freshly connected
name's retryCount stays 0 across any number of failed health checks. -/
theorem C6_healthCheck_frame (env : Except String (List String)) (name : String)
    (now : Int) (s : MCPState) :
    (healthCheck env name now s).2.retryAttempts = s.retryAttempts ∧
    (healthCheck env name now s).2.clients = s.clients ∧
    (healthCheck env name now s).2.transports = s.transports ∧
    (healthCheck env name now s).2.tools = s.tools ∧
    (healthCheck env name now s).2.openTransports = s.openTransports ∧
    (healthCheck env name now s).2.nextId = s.nextId ∧
    (∀ n', n' ≠ name →
       mget (healthCheck env name now s).2.connectionStatus n' = mget s.connectionStatus n') ∧
    (mget s.clients name = none → healthCheck env name now s = (false, s)) := by
  cases h : mget s.clients name with
  | none =>
    have hs : healthCheck env name now s = (false, s) := by simp [healthCheck, h]
    rw [hs]
    exact ⟨rfl, rfl, rfl, rfl, rfl, rfl, fun n' _ => rfl, fun _ => rfl⟩
  | some c =>
    obtain ⟨st, hs2⟩ : ∃ st, (healthCheck env name now s).2
        = { s with connectionStatus := mset s.connectionStatus name st } := by
      cases env with
      | ok ts =>
        exact ⟨{ connected := true, serverName := name, lastChecked := now, error := none },
               by simp [healthCheck, h]⟩
      | error msg =>
        exact ⟨{ connected := false, serverName := name, lastChecked := now, error := some msg },
               by simp [healthCheck, h]⟩
    rw [hs2]
    exact ⟨rfl, rfl, rfl, rfl, rfl, rfl,
           fun n' hn' => mget_mset_ne _ _ _ _ (Ne.symm hn'),
           fun hnone => Option.noConfusion hnone⟩

/-! ## Claim C7 -/

/-- Mapping an id-preserving update over exactly the matching rows moves
`find?` from the old row to its updated image. -/
theorem find_map_update (db : SessionDB) (id : String) (u : Session → Session)
    (hu : ∀ r, (u r).id = r.id) (s : Session)
    (hfind : List.find? (fun r => r.id = id) db = some s) :
    List.find? (fun r => r.id = id) (db.map (fun r => if r.id = id then u r else r))
      = some (u s) := by
  induction db with
  | nil => cases hfind
  | cons r db ih =>
    by_cases h : r.id = id
    · rw [List.find?_cons_of_pos _ (by simp [h])] at hfind
      injection hfind with hs
      subst hs
      simp only [List.map_cons, if_pos h]
      exact List.find?_cons_of_pos _ (by simp [hu, h])
    · rw [List.find?_cons_of_neg _ (by simp [h])] at hfind
      simp only [List.map_cons, if_neg h]
      rw [List.find?_cons_of_neg _ (by simp [h])]
      exact ih hfind

/-- Claim C7: `updateSession` on an absent id fails with the not-found error
and leaves the table unchanged; on a present id it succeeds, and the stored
record afterwards carries exactly the supplied fields merged over the old
ones, lastAccessedAt set to now, and the old id and createdAt — while every
row with a different id is still in the table. -/
theorem C7_updateSession_merge (id : String) (p : SessionPatch) (now : Int) (db : SessionDB) :
    (getSession id db = none →
       updateSession id p now db = (.error ("Session " ++ id ++ " not found"), db)) ∧
    (∀ s, getSession id db = some s →
       (updateSession id p now db).1 = .ok () ∧
       getSession id (updateSession id p now db).2 = some
         { id := s.id, createdAt := s.createdAt, lastAccessedAt := now,
           chatHistory := p.chatHistory.getD s.chatHistory,
           currentDiagram := p.currentDiagram.getD s.currentDiagram,
           config := p.config.getD s.config } ∧
       (∀ r ∈ db, r.id ≠ id → r ∈ (updateSession id p now db).2)) := by
  constructor
  · intro h
    rw [updateSession, h]
  · intro s hs
    refine ⟨by rw [updateSession, hs], ?_, ?_⟩
    · rw [updateSession, hs]
      simp only [getSession] at hs ⊢
      exact find_map_update db id
        (fun r => { r with lastAccessedAt := (mergeSession s p now).lastAccessedAt,
                           chatHistory := (mergeSession s p now).chatHistory,
                           currentDiagram := (mergeSession s p now).currentDiagram,
                           config := (mergeSession s p now).config })
        (fun r => rfl) s hs
    · intro r hr hne
      rw [updateSession, hs]
      simp only
      have hfix : (fun x => if x.id = id then
          { x with lastAccessedAt := (mergeSession s p now).lastAccessedAt,
                   chatHistory := (mergeSession s p now).chatHistory,
                   currentDiagram := (mergeSession s p now).currentDiagram,
                   config := (mergeSession s p now).config } else x) r = r := by
        simp [hne]
      rw [← hfix]
      exact List.mem_map_of_mem _ hr

/-! ## Claim C8 -/

/-- A row whose id no existing row carries is found at the end of the
table after an append. -/
theorem find_append_fresh (db : SessionDB) (s : Session) (newId : String)
    (hid : s.id = newId) (hfresh : ∀ r ∈ db, r.id ≠ newId) :
    List.find? (fun r => r.id = newId) (db ++ [s]) = some s := by
  induction db with
  | nil => exact List.find?_cons_of_pos _ (by simp [hid])
  | cons r db ih =>
    have hr : r.id ≠ newId := hfresh r (by simp)
    rw [List.cons_append, List.find?_cons_of_neg _ (by simp [hr])]
    exact ih (fun r' h => hfresh r' (by simp [h]))

/-- Claim C8: `createSession` returns a session whose id is the freshly
generated one, whose createdAt and lastAccessedAt both equal now, with empty
chatHistory, no currentDiagram and the default config; the row is inserted,
and `getSession` on the new id immediately returns that very record. -/
theorem C8_createSession_getSession (newId : String) (now : Int) (db : SessionDB)
    (hfresh : ∀ r ∈ db, r.id ≠ newId) :
    (createSession newId now db).1.id = newId ∧
    (createSession newId now db).1.createdAt = now ∧
    (createSession newId now db).1.lastAccessedAt = now ∧
    (createSession newId now db).1.chatHistory = [] ∧
    (createSession newId now db).1.currentDiagram = none ∧
    (createSession newId now db).1.config = defaultConfig ∧
    getSession newId (createSession newId now db).2 = some (createSession newId now db).1 := by
  refine ⟨rfl, rfl, rfl, rfl, rfl, rfl, ?_⟩
  exact find_append_fresh db _ newId rfl hfresh

/-- Claim C8, witness: creating a session in a one-row table with a fresh
id, then reading it back. -/
theorem C8_witness :
    (∀ r ∈ ([sessLive] : SessionDB), r.id ≠ "s1") ∧
    ((createSession "s1" now0 [sessLive]).1.id = "s1" ∧
     (createSession "s1" now0 [sessLive]).1.createdAt = now0 ∧
     (createSession "s1" now0 [sessLive]).1.lastAccessedAt = now0 ∧
     (createSession "s1" now0 [sessLive]).1.chatHistory = [] ∧
     (createSession "s1" now0 [sessLive]).1.currentDiagram = none ∧
     (createSession "s1" now0 [sessLive]).1.config = defaultConfig ∧
     getSession "s1" (createSession "s1" now0 [sessLive]).2
       = some (createSession "s1" now0 [sessLive]).1) :=
  ⟨by decide, C8_createSession_getSession "s1" now0 [sessLive] (by decide)⟩

/-! ## Claim C9 -/

/-- Claim C9: after `deleteSession` the id resolves to nothing, deleting
again changes nothing (idempotence), and deleting an id no row carries
leaves the table exactly as it was. -/
theorem C9_deleteSession_idempotent (id : String) (db : SessionDB) :
    getSession id (deleteSession id db) = none ∧
    deleteSession id (deleteSession id db) = deleteSession id db ∧
    ((∀ r ∈ db, r.id ≠ id) → deleteSession id db = db) := by
  refine ⟨?_, ?_, fun h => ?_⟩
  · rw [getSession, List.find?_eq_none]
    intro r hr
    have := (List.mem_filter.mp hr).2
    simpa using this
  · rw [deleteSession, deleteSession, List.filter_filter]
    apply List.filter_congr
    intro r _
    by_cases hr : r.id = id <;> simp [hr]
  · exact List.filter_eq_self.mpr (fun r hr => by simpa using h r hr)

/-! ## Claim C10 -/

/-- Whatever the shape type, every tool call `createShape` issues carries
exactly the value `getShapeStyle` produced as its style. -/
theorem createShape_sends_style (env : Except String (List String)) (s : MCPState)
    (ty label : String) (position : Position) (width height : Int) :
    ∀ c ∈ (createShape env s ty label position width height).calls,
      c.2.2.style = getShapeStyle ty := by
  intro c hc
  rw [createShape] at hc
  cases hcl : mget s.clients "drawio" with
  | none => simp [callTool, hcl] at hc
  | some cl =>
    simp [callTool, hcl] at hc
    subst hc
    rfl

/-- Claim C10, counterexample. The type string `toString` is not among the
five named shape types, yet on a connected client `createShape` does not
send the default (rectangle) style: `styles["toString"]` reaches the
truthy `Object.prototype.toString` inherited member, `||` never falls
back, and that inherited value is what goes out as the style. -/
theorem C10_counterexample_prototype_member :
    (("toString" : String) ∉ (["rectangle", "ellipse", "cloud", "cylinder", "actor"] : List String)) ∧
    (createShape (Except.ok ["cell1"]) (connect envAllOk "drawio" 0 initState).2
        "toString" "Node" ⟨0, 0⟩ 120 60).calls
      = [("drawio", "mcp_drawio_add_rectangle",
          { text := "Node", x := 0, y := 0, width := 120, height := 60,
            style := JSProp.inherited "toString" })] ∧
    JSProp.inherited "toString"
      ≠ JSProp.str "whiteSpace=wrap;html=1;fillColor=#dae8fc;strokeColor=#6c8ebf;" := by
  refine ⟨by decide, ?_, by decide⟩
  simp [createShape, callTool, connect, connectWithRetry, envAllOk, attemptEffect,
        initState, mset, mget, AttemptOutcome.isFail, getShapeStyle, readStyleProp,
        shapeStyles, objectProtoMembers, JSProp.truthy]

/-- Claim C10, amended. For a shape type outside the five named styles the
lookup falls back to the default (rectangle) style — and `createShape`
sends it — only when the type is also not an `Object.prototype` property
name; for a prototype member name (`constructor`, `toString`, `__proto__`,
…) the access yields the truthy inherited value, `||` does not fall back,
and that inherited value is sent as the style instead. -/
theorem C10_default_shape_style (env : Except String (List String)) (s : MCPState)
    (ty label : String) (position : Position) (width height : Int)
    (hty : ty ∉ (["rectangle", "ellipse", "cloud", "cylinder", "actor"] : List String)) :
    (ty ∉ objectProtoMembers →
       getShapeStyle ty = .str "whiteSpace=wrap;html=1;fillColor=#dae8fc;strokeColor=#6c8ebf;" ∧
       getShapeStyle ty = getShapeStyle "rectangle" ∧
       ∀ c ∈ (createShape env s ty label position width height).calls,
         c.2.2.style = getShapeStyle "rectangle") ∧
    (ty ∈ objectProtoMembers →
       getShapeStyle ty = .inherited ty ∧
       ∀ c ∈ (createShape env s ty label position width height).calls,
         c.2.2.style = JSProp.inherited ty) := by
  simp only [List.mem_cons, List.not_mem_nil, not_or, or_false] at hty
  obtain ⟨h1, h2, h3, h4, h5⟩ := hty
  constructor
  · intro hproto
    have hstyle : getShapeStyle ty
        = .str "whiteSpace=wrap;html=1;fillColor=#dae8fc;strokeColor=#6c8ebf;" := by
      by_cases hd : ty = "default"
      · subst hd; rfl
      · simp [getShapeStyle, readStyleProp, shapeStyles, mget, JSProp.truthy, hproto,
              Ne.symm h1, Ne.symm h2, Ne.symm h3, Ne.symm h4, Ne.symm h5, Ne.symm hd]
    refine ⟨hstyle, by rw [hstyle]; rfl, ?_⟩
    intro c hc
    rw [createShape_sends_style env s ty label position width height c hc, hstyle]
    rfl
  · intro hproto
    have hd : ty ≠ "default" := by
      intro he
      subst he
      exact absurd hproto (by decide)
    have hnone : mget shapeStyles ty = none := by
      simp [shapeStyles, mget, Ne.symm h1, Ne.symm h2, Ne.symm h3, Ne.symm h4,
            Ne.symm h5, Ne.symm hd]
    have hstyle : getShapeStyle ty = .inherited ty := by
      simp [getShapeStyle, readStyleProp, hnone, hproto, JSProp.truthy]
    refine ⟨hstyle, ?_⟩
    intro c hc
    rw [createShape_sends_style env s ty label position width height c hc, hstyle]

/-- Claim C10, witness: the unknown type `hexagon` — outside the five named
styles and not a prototype member — is sent with the default (rectangle)
style, while a prototype member name would be sent as the inherited value. -/
theorem C10_witness :
    (("hexagon" : String) ∉ (["rectangle", "ellipse", "cloud", "cylinder", "actor"] : List String)) ∧
    ((("hexagon" : String) ∉ objectProtoMembers →
        getShapeStyle "hexagon"
          = .str "whiteSpace=wrap;html=1;fillColor=#dae8fc;strokeColor=#6c8ebf;" ∧
        getShapeStyle "hexagon" = getShapeStyle "rectangle" ∧
        ∀ c ∈ (createShape (Except.ok ["cell1"]) initState "hexagon" "Node" ⟨10, 20⟩ 120 60).calls,
          c.2.2.style = getShapeStyle "rectangle") ∧
     (("hexagon" : String) ∈ objectProtoMembers →
        getShapeStyle "hexagon" = .inherited "hexagon" ∧
        ∀ c ∈ (createShape (Except.ok ["cell1"]) initState "hexagon" "Node" ⟨10, 20⟩ 120 60).calls,
          c.2.2.style = JSProp.inherited "hexagon")) :=
  ⟨by decide,
   C10_default_shape_style (Except.ok ["cell1"]) initState "hexagon" "Node" ⟨10, 20⟩ 120 60
     (by decide)⟩

end DiagramAI
